import Mathlib

/-!
Verification of the TradingAgents LLM-client layer and state-export utilities.

This file gives a shallow embedding, in Lean 4, of the deterministic parts of
the repository:

* `tradingagents/llm_clients/mock_client.py` — the canned responses and the
  keyword router `_route_response` of the mock LLM client;
* `tradingagents/graph/log_utils.py` — the Markdown renderer `_state_to_md`
  for persisted pipeline-state snapshots;
* `tradingagents/llm_clients/local_utils.py` — the Ollama health-check, model
  pull, GGUF path validation and memory-estimate helpers;
* `tradingagents/llm_clients/llamacpp_client.py` — construction and
  `get_llm` configuration of the llama-cpp backed client.

Python strings are modelled by `String`, Python string methods by the
`py*` helpers below (ASCII case folding, as all router keywords are ASCII).
Effects at the boundary of the program (HTTP requests, subprocesses, the file
system) are modelled by explicit outcome types and a `FileSystem` record of
predicates, so every embedded function is total; a Python function that can
raise is embedded with an `Except` result.
-/

set_option maxRecDepth 40000

/-- Membership of `n` as a contiguous run anywhere in a character list; this is
the semantics of the Python `in` operator on strings. -/
def infixAnywhere (n : List Char) : List Char → Bool
  | [] => n.isPrefixOf []
  | c :: cs => n.isPrefixOf (c :: cs) || infixAnywhere n cs

/-- Python `needle in hay` for strings. -/
def pyContains (hay needle : String) : Bool :=
  infixAnywhere needle.data hay.data

/-- Python `s.endswith(suffix)`. -/
def pyEndsWith (s suffix : String) : Bool :=
  suffix.data.isSuffixOf s.data

/-- Python `s.lower()`, restricted to ASCII case folding (every keyword the
router tests for, and every file extension compared, is ASCII). -/
def pyLower (s : String) : String :=
  String.mk (s.data.map Char.toLower)

/-!
## Canned responses of the mock client

The module-level response constants of
`tradingagents/llm_clients/mock_client.py`, transcribed verbatim (the Python
triple-quoted strings are rendered here with explicit newline escapes).
-/

/-- `MOCK_MARKET_REPORT` from `mock_client.py`. -/
def MOCK_MARKET_REPORT : String :=
  "## Market Analysis Report\n\n**Trend Overview**: The stock shows a moderate uptrend over the past 30 days with increasing volume. The 50-day SMA is above the 200-day SMA, confirming a bullish golden cross pattern.\n\n**Key Technical Indicators**:\n- RSI: 62 (neutral-bullish, not overbought)\n- MACD: Positive crossover observed, histogram expanding\n- Bollinger Bands: Price trading in upper half, bandwidth expanding\n- ATR: Volatility increasing slightly, suggesting momentum building\n\n**Volume Analysis**: Volume has been 15% above the 20-day average, supporting the current uptrend.\n\n| Indicator | Value | Signal |\n|-----------|-------|--------|\n| RSI (14) | 62.3 | Neutral-Bullish |\n| MACD | +1.24 | Bullish Crossover |\n| 50 SMA | Above 200 SMA | Golden Cross |\n| ATR (14) | 2.8% | Moderate Volatility |\n\nFINAL TRANSACTION PROPOSAL: **BUY**"

/-- `MOCK_SENTIMENT_REPORT` from `mock_client.py`. -/
def MOCK_SENTIMENT_REPORT : String :=
  "## Social Sentiment Analysis\n\n**Overall Sentiment**: Moderately positive across major social platforms.\n\n**Key Findings**:\n- Twitter/X mentions up 23% week-over-week with 68% positive sentiment\n- Reddit discussion volume elevated; bullish posts outnumber bearish 3:1\n- Institutional investor commentary skews cautiously optimistic\n- No significant negative viral content detected\n\n| Platform | Sentiment | Volume Change |\n|----------|-----------|---------------|\n| Twitter/X | 68% Positive | +23% WoW |\n| Reddit | 75% Positive | +18% WoW |\n| StockTwits | 61% Positive | +12% WoW |\n\nFINAL TRANSACTION PROPOSAL: **BUY**"

/-- `MOCK_NEWS_REPORT` from `mock_client.py`. -/
def MOCK_NEWS_REPORT : String :=
  "## News Analysis Report\n\n**Key Developments**:\n1. Company reported Q1 earnings beating consensus estimates by 8%\n2. New product launch received positive industry coverage\n3. Sector-wide tailwinds from favorable regulatory developments\n4. No significant insider selling detected in recent filings\n\n**Macro Environment**: Stable interest rate outlook supports growth-oriented investments. Recent economic data indicates resilient consumer spending.\n\n| Factor | Impact | Confidence |\n|--------|--------|------------|\n| Earnings Beat | Positive | High |\n| Product Launch | Positive | Medium |\n| Regulatory | Positive | Medium |\n| Macro Outlook | Neutral-Positive | Medium |\n\nFINAL TRANSACTION PROPOSAL: **BUY**"

/-- `MOCK_FUNDAMENTALS_REPORT` from `mock_client.py`. -/
def MOCK_FUNDAMENTALS_REPORT : String :=
  "## Fundamentals Analysis\n\n**Financial Health**: Strong balance sheet with healthy cash reserves and manageable debt levels.\n\n**Key Metrics**:\n- Revenue growth: 12% YoY\n- Gross margin: 65% (expanding)\n- Operating margin: 28% (stable)\n- Free cash flow positive and growing\n- Debt-to-equity: 0.45 (conservative)\n- Current ratio: 2.1 (strong liquidity)\n\n**Valuation**: Trading at a reasonable P/E relative to growth rate (PEG ~1.2).\n\n| Metric | Value | Trend |\n|--------|-------|-------|\n| Revenue Growth | 12% YoY | Improving |\n| Gross Margin | 65% | Expanding |\n| FCF Yield | 3.8% | Stable |\n| P/E Ratio | 28x | Fair |\n| Debt/Equity | 0.45 | Conservative |\n\nFINAL TRANSACTION PROPOSAL: **BUY**"

/-- `MOCK_BULL_ARGUMENT` from `mock_client.py`. -/
def MOCK_BULL_ARGUMENT : String :=
  "The investment case here is compelling. Revenue growth of 12% YoY with expanding margins demonstrates operational leverage. The golden cross on the technical chart aligns with improving fundamentals, and positive social sentiment suggests the market is beginning to recognize the value proposition. The recent earnings beat provides a catalyst, and the PEG ratio of 1.2 suggests the stock is reasonably priced relative to its growth trajectory. I strongly advocate for a BUY position."

/-- `MOCK_BEAR_ARGUMENT` from `mock_client.py`. -/
def MOCK_BEAR_ARGUMENT : String :=
  "While the fundamentals appear solid on the surface, the RSI at 62 suggests we are approaching overbought territory. The elevated social media activity could indicate speculative froth rather than fundamental conviction. Additionally, the sector tailwinds may already be priced in. However, I acknowledge the earnings beat is a genuine positive signal. My concern is primarily around timing and valuation stretch rather than fundamental deterioration."

/-- `MOCK_RESEARCH_MANAGER_DECISION` from `mock_client.py`. -/
def MOCK_RESEARCH_MANAGER_DECISION : String :=
  "After carefully evaluating both perspectives, I side with the bull analyst. The convergence of strong earnings, positive technical momentum, and improving fundamentals creates a favorable risk-reward profile.\n\n**Recommendation: BUY**\n\n**Strategic Actions**:\n1. Initiate a position at current levels\n2. Set a stop-loss at 5% below entry\n3. Target a 15% upside over the next quarter\n4. Monitor upcoming earnings and sector developments for position adjustment\n\nFINAL TRANSACTION PROPOSAL: **BUY**"

/-- `MOCK_TRADER_DECISION` from `mock_client.py`. -/
def MOCK_TRADER_DECISION : String :=
  "Based on the comprehensive analysis from the research team, I am executing a BUY recommendation.\n\n**Trade Plan**:\n- Action: BUY\n- Position Size: Moderate (not full allocation due to elevated RSI)\n- Entry: At current market price\n- Stop-Loss: 5% below entry\n- Take-Profit Target: 15% above entry\n- Time Horizon: 1-3 months\n\nThe research team's bullish consensus, supported by strong earnings, positive technicals, and favorable sentiment, provides sufficient conviction for this trade.\n\nFINAL TRANSACTION PROPOSAL: **BUY**"

/-- `MOCK_AGGRESSIVE_RISK` from `mock_client.py`. -/
def MOCK_AGGRESSIVE_RISK : String :=
  "The upside potential here significantly outweighs the downside risk. With 12% revenue growth, expanding margins, and a technical golden cross, we should be taking a larger position than suggested. The 5% stop-loss is too tight for the volatility profile; I would advocate for an 8% stop to avoid being shaken out. The conservative concern about RSI is overblown -- in strong uptrends, RSI can remain elevated for extended periods. We should be aggressive here."

/-- `MOCK_CONSERVATIVE_RISK` from `mock_client.py`. -/
def MOCK_CONSERVATIVE_RISK : String :=
  "While I acknowledge the positive signals, prudent risk management demands caution. The position size should be limited, and the stop-loss should remain tight. The market has been running hot, and mean reversion is always a risk. I recommend a smaller initial position with plans to add on any pullback, rather than going all-in at these levels."

/-- `MOCK_NEUTRAL_RISK` from `mock_client.py`. -/
def MOCK_NEUTRAL_RISK : String :=
  "Both the aggressive and conservative viewpoints have merit. A balanced approach would be to initiate a moderate position as the trader suggests, with the 5% stop-loss as a reasonable compromise. The risk-reward is favorable but not extraordinary. I support the BUY recommendation with the proposed position sizing."

/-- `MOCK_RISK_JUDGE_DECISION` from `mock_client.py`. -/
def MOCK_RISK_JUDGE_DECISION : String :=
  "After evaluating all three risk perspectives, I recommend proceeding with the BUY.\n\n**Final Risk-Adjusted Plan**:\n- Action: BUY\n- Position Size: Moderate allocation\n- Stop-Loss: 6% below entry (compromise between aggressive and conservative)\n- Take-Profit: 15% target with trailing stop\n- Risk Rating: Moderate\n\nThe aggressive analyst makes a valid point about the strong trend, while the conservative analyst's caution about position sizing is prudent. The neutral analyst's balanced view aligns closest with optimal risk management. Proceeding with a moderate position at current levels.\n\nFINAL TRANSACTION PROPOSAL: **BUY**"

/-- The reflection response literal returned for the expert-financial-analyst
prompt in `_route_response`. -/
def MOCK_REFLECTION_RESPONSE : String :=
  "Reflection: The analysis was thorough and well-supported by data."

/-- The generic fallback response literal returned by `_route_response` when no
routing predicate matches. -/
def MOCK_FALLBACK_RESPONSE : String :=
  "Analysis complete. FINAL TRANSACTION PROPOSAL: **BUY**"

/-!
## Routing predicates

One Boolean predicate per `if` guard of `_route_response`, in source order,
each over the already-lowercased prompt text `t`.
-/

/-- Guard of the signal-extraction rule: `"extract the investment decision" in t`. -/
def matchesExtractDecision (t : String) : Bool :=
  pyContains t "extract the investment decision"

/-- Guard of the market-analyst rule. -/
def matchesMarket (t : String) : Bool :=
  pyContains t "analyzing financial markets" || pyContains t "technical indicator"

/-- Guard of the sentiment-analyst rule. -/
def matchesSentiment (t : String) : Bool :=
  pyContains t "social media" && pyContains t "sentiment" && !pyContains t "analyst"

/-- Guard of the news-analyst rule. -/
def matchesNews (t : String) : Bool :=
  pyContains t "news" && pyContains t "researcher" && pyContains t "world affairs"

/-- Guard of the fundamentals-analyst rule. -/
def matchesFundamentals (t : String) : Bool :=
  pyContains t "fundamental information" || pyContains t "financial documents"

/-- Guard of the bull-researcher rule. -/
def matchesBull (t : String) : Bool :=
  pyContains t "bull analyst"

/-- Guard of the bear-researcher rule. -/
def matchesBear (t : String) : Bool :=
  pyContains t "bear analyst"

/-- Guard of the research-manager rule. -/
def matchesResearchManager (t : String) : Bool :=
  pyContains t "portfolio manager and debate facilitator"

/-- Guard of the risk-judge rule. -/
def matchesRiskJudge (t : String) : Bool :=
  pyContains t "risk management judge"

/-- Guard of the trader rule. -/
def matchesTrader (t : String) : Bool :=
  pyContains t "trading agent" && pyContains t "investment decision"

/-- Guard of the aggressive-risk-analyst rule. -/
def matchesAggressive (t : String) : Bool :=
  pyContains t "aggressive risk analyst"

/-- Guard of the conservative-risk-analyst rule. -/
def matchesConservative (t : String) : Bool :=
  pyContains t "conservative risk analyst"

/-- Guard of the neutral-risk-analyst rule. -/
def matchesNeutral (t : String) : Bool :=
  pyContains t "neutral risk analyst"

/-- Guard of the reflection rule. -/
def matchesReflection (t : String) : Bool :=
  pyContains t "expert financial analyst" && pyContains t "reviewing trading"

/-- The ordered first-match-wins rule chain of `_route_response`, over the
already-lowercased text `t` (the Python body after `t = text.lower()`). -/
def routeLower (t : String) : String :=
  if matchesExtractDecision t then "BUY"
  else if matchesMarket t then MOCK_MARKET_REPORT
  else if matchesSentiment t then MOCK_SENTIMENT_REPORT
  else if matchesNews t then MOCK_NEWS_REPORT
  else if matchesFundamentals t then MOCK_FUNDAMENTALS_REPORT
  else if matchesBull t then MOCK_BULL_ARGUMENT
  else if matchesBear t then MOCK_BEAR_ARGUMENT
  else if matchesResearchManager t then MOCK_RESEARCH_MANAGER_DECISION
  else if matchesRiskJudge t then MOCK_RISK_JUDGE_DECISION
  else if matchesTrader t then MOCK_TRADER_DECISION
  else if matchesAggressive t then MOCK_AGGRESSIVE_RISK
  else if matchesConservative t then MOCK_CONSERVATIVE_RISK
  else if matchesNeutral t then MOCK_NEUTRAL_RISK
  else if matchesReflection t then MOCK_REFLECTION_RESPONSE
  else MOCK_FALLBACK_RESPONSE

/-- `_route_response(text)` from `mock_client.py`: lowercase the prompt text,
then evaluate the ordered rule chain. -/
def _route_response (text : String) : String :=
  routeLower (pyLower text)

/-- Disjunction of every routing-rule guard, used to say that some rule of
`_route_response` fires before the final fallback return. -/
def anyRuleMatches (t : String) : Bool :=
  matchesExtractDecision t || matchesMarket t || matchesSentiment t || matchesNews t ||
  matchesFundamentals t || matchesBull t || matchesBear t || matchesResearchManager t ||
  matchesRiskJudge t || matchesTrader t || matchesAggressive t || matchesConservative t ||
  matchesNeutral t || matchesReflection t

/-- The three categorical decision tokens of the pipeline. -/
def SIGNALS : List String := ["BUY", "SELL", "HOLD"]

/-- The sentinel phrase for a given signal token. -/
def sentinelFor (sig : String) : String :=
  "FINAL TRANSACTION PROPOSAL: **" ++ sig ++ "**"

/-- Whether `s` ends with the sentinel phrase for some signal in `SIGNALS`. -/
def endsWithSentinel (s : String) : Bool :=
  SIGNALS.any fun sig => pyEndsWith s (sentinelFor sig)

/-- Whether `s` contains the sentinel phrase for some signal in `SIGNALS`. -/
def containsSentinel (s : String) : Bool :=
  SIGNALS.any fun sig => pyContains s (sentinelFor sig)

example : _route_response "You are a Bull Analyst" = MOCK_BULL_ARGUMENT := by decide
example : endsWithSentinel MOCK_BULL_ARGUMENT = false := by decide
example : endsWithSentinel MOCK_MARKET_REPORT = true := by decide
example : anyRuleMatches (pyLower "hello") = false := by decide

/-!
## Pipeline-state snapshots and their Markdown rendering

Embedding of `_state_to_md` from `tradingagents/graph/log_utils.py`. A
snapshot is a Python dict; per the data model its top-level values are strings
except the two debate-state fields, which are one-level dicts of strings.
`StateVal` captures exactly these two shapes. Rendering follows the source
block by block; a block that can raise a Python `TypeError` (indexing a
string with a string key) is embedded in `Except`.
-/

/-- A value stored in a pipeline-state snapshot: a string, or a one-level
nested map of strings (the shape of `investment_debate_state` and
`risk_debate_state`). -/
inductive StateVal where
  | str : String → StateVal
  | dict : List (String × String) → StateVal
deriving DecidableEq

/-- A pipeline-state snapshot: a Python dict modelled as an association list
with distinct keys (lookup takes the first binding, as a dict has one). -/
def Snapshot := List (String × StateVal)

/-- Python dict lookup `state[key]` / membership `key in state`. -/
def lookupKey (st : Snapshot) (key : String) : Option StateVal :=
  (List.find? (fun kv => kv.1 = key) st).map (fun kv => kv.2)

/-- Lookup in a nested string-valued map. -/
def lookupSub (m : List (String × String)) (key : String) : Option String :=
  (List.find? (fun kv => kv.1 = key) m).map (fun kv => kv.2)

/-- Python truthiness of a snapshot value: the empty string and the empty dict
are falsy, everything else is truthy. -/
def StateVal.truthy : StateVal → Bool
  | .str s => !(s = "")
  | .dict m => !m.isEmpty

/-- Python `repr` of a flat string-keyed dict of strings (quoting shown with
plain single quotes, escapes elided), used only when an f-string formats a
dict value. -/
def pyDictRepr (m : List (String × String)) : String :=
  "\x7b" ++ String.intercalate ", " (m.map fun kv => "'" ++ kv.1 ++ "': '" ++ kv.2 ++ "'") ++ "\x7d"

/-- How a snapshot value is rendered inside an f-string: a string renders as
itself, a dict as its `repr`. -/
def StateVal.toText : StateVal → String
  | .str s => s
  | .dict m => pyDictRepr m

/-- Helper for Python `str.title()`: capitalize a letter that follows a
non-letter, lowercase a letter that follows a letter. -/
def titleAux : Bool → List Char → List Char
  | _, [] => []
  | prevAlpha, c :: cs =>
    (if c.isAlpha then (if prevAlpha then c.toLower else c.toUpper) else c) ::
      titleAux c.isAlpha cs

/-- Python `s.title()` (ASCII; the rendered keys are ASCII). -/
def pyTitle (s : String) : String :=
  String.mk (titleAux false s.data)

/-- `key.replace("_", " ").title()`, the section-title computation of
`_state_to_md`. -/
def keyTitle (key : String) : String :=
  pyTitle (String.mk (key.data.map fun c => if c = '_' then ' ' else c))

/-- The four top-level report keys iterated first by `_state_to_md`. -/
def REPORT_KEYS : List String :=
  ["market_report", "sentiment_report", "news_report", "fundamentals_report"]

/-- The `investment_debate_state` sub-keys iterated by `_state_to_md`. -/
def INVEST_SUBKEYS : List String :=
  ["bull_history", "bear_history", "current_response", "judge_decision",
   "trader_investment_decision"]

/-- The `risk_debate_state` sub-keys iterated by `_state_to_md`. -/
def RISK_SUBKEYS : List String :=
  ["aggressive_history", "conservative_history", "neutral_history", "judge_decision"]

/-- The two trailing top-level keys iterated last by `_state_to_md`. -/
def TAIL_KEYS : List String := ["investment_plan", "final_trade_decision"]

/-- The section-header part appended for `investment_debate_state`. -/
def INVEST_HEADER : String := "\n---\n## Investment Debate\n\n"

/-- The section-header part appended for `risk_debate_state`. -/
def RISK_HEADER : String := "\n---\n## Risk Debate\n\n"

/-- The first rendered part: the company and trade-date line (with `state.get`
defaults `N/A`). -/
def companyLine (st : Snapshot) : String :=
  "**Company:** " ++
    (match lookupKey st "company_of_interest" with
     | some v => v.toText
     | none => "N/A") ++
  " | **Trade Date:** " ++
    (match lookupKey st "trade_date" with
     | some v => v.toText
     | none => "N/A") ++ "\n"

/-- One iteration of the top-level report/tail loops of `_state_to_md`: a part
is appended when the key is present and its value truthy. -/
def renderTopField (st : Snapshot) (key : String) : List String :=
  match lookupKey st key with
  | some v =>
    if v.truthy then
      ["\n---\n## " ++ keyTitle key ++ "\n\n" ++ v.toText ++ "\n"]
    else []
  | none => []

/-- The sub-field loop of a debate block over a dict value: a `###` part is
appended per listed sub-key that is present with a truthy (non-empty) value. -/
def renderSubfields (m : List (String × String)) (subkeys : List String) : List String :=
  (subkeys.map fun sk =>
    match lookupSub m sk with
    | some x => if !(x = "") then ["### " ++ keyTitle sk ++ "\n\n" ++ x ++ "\n\n"] else []
    | none => []).flatten

/-- A debate block of `_state_to_md`: nothing when the key is absent; the
section header plus present sub-fields when the value is a dict. When the
value is a string, Python evaluates `subkey in ids` as substring search and
`ids[subkey]` then raises `TypeError`, so the block raises exactly when some
listed sub-key occurs in the string, and otherwise yields only the header. -/
def renderDebateBlock (st : Snapshot) (key header : String) (subkeys : List String) :
    Except String (List String) :=
  match lookupKey st key with
  | none => .ok []
  | some (.dict m) => .ok (header :: renderSubfields m subkeys)
  | some (.str x) =>
    if subkeys.any (fun sk => pyContains x sk) then
      .error "TypeError: string indices must be integers"
    else .ok [header]

/-- `_state_to_md(state)` from `log_utils.py`: company line, the four report
fields, the investment-debate block, the risk-debate block, then the two
trailing fields, in source order. A raised `TypeError` aborts the whole
rendering, which the `Except` bind models. -/
def _state_to_md (st : Snapshot) : Except String (List String) := do
  let investParts ← renderDebateBlock st "investment_debate_state" INVEST_HEADER INVEST_SUBKEYS
  let riskParts ← renderDebateBlock st "risk_debate_state" RISK_HEADER RISK_SUBKEYS
  return [companyLine st] ++ (REPORT_KEYS.map (renderTopField st)).flatten ++
    investParts ++ riskParts ++ (TAIL_KEYS.map (renderTopField st)).flatten

example : keyTitle "market_report" = "Market Report" := by decide
example : keyTitle "trader_investment_decision" = "Trader Investment Decision" := by decide
example :
    _state_to_md [("risk_debate_state", .dict [])] =
      .ok ["**Company:** N/A | **Trade Date:** N/A\n", RISK_HEADER] := by rfl
example :
    _state_to_md [("company_of_interest", .str "NVDA"), ("market_report", .str "up"),
      ("investment_debate_state", .str "contains bull_history inside")] =
      .error "TypeError: string indices must be integers" := by rfl

/-!
## Local-model utilities

Embedding of `check_ollama_health`, `pull_ollama_model`, `validate_gguf_path`
and `estimate_memory_usage` from `tradingagents/llm_clients/local_utils.py`.
The HTTP request and the subprocess call are modelled by explicit outcome
types covering exactly the cases the source's `try/except` arms distinguish;
the file system is a record of the three predicates the source consults.
Python float arithmetic (`* 1.15`, `round(x, 1)`, `:.1f` formatting) is
modelled by exact rational arithmetic with round-half-even.
-/

/-- What `resp.json().get("models", [])` plus the `m["name"]` accesses yield on
a 200 response: the list of model names, or an in-`try` exception (malformed
JSON or a missing `name` key) carrying the exception text. -/
inductive TagsBody where
  | models (names : List String)
  | bad (emsg : String)

/-- The outcome of `requests.get(f"{base_url}/api/tags", timeout=5)` together
with the subsequent JSON access, as distinguished by the source's handlers. -/
inductive HttpOutcome where
  | resp (status : Nat) (body : TagsBody)
  | connError
  | timeout
  | exc (msg : String)

/-- The `timeout=5` argument passed to `requests.get` in
`check_ollama_health` and `check_ollama_model`. -/
def OLLAMA_HEALTH_TIMEOUT_SECONDS : Nat := 5

/-- The `timeout=600` argument passed to `subprocess.run` in
`pull_ollama_model`. -/
def OLLAMA_PULL_TIMEOUT_SECONDS : Nat := 600

/-- `check_ollama_health(base_url)` from `local_utils.py`, as a function of the
request outcome. Every arm of the source's `try/except` returns a
`(bool, message)` tuple, so the embedding is total into `Bool × String`. -/
def check_ollama_health (outcome : HttpOutcome) : Bool × String :=
  match outcome with
  | .resp status body =>
    if status = 200 then
      match body with
      | .models names =>
        let joined := String.intercalate ", " names
        (true, "Ollama running with " ++ toString names.length ++ " model(s): " ++
          (if joined = "" then "none" else joined))
      | .bad e => (false, "Ollama health check failed: " ++ e)
    else (false, "Ollama returned status " ++ toString status)
  | .connError => (false, "Ollama server not reachable. Start with: ollama serve")
  | .timeout => (false, "Ollama server timed out")
  | .exc e => (false, "Ollama health check failed: " ++ e)

/-- The outcome of `subprocess.run(["ollama", "pull", model_name], ...,
timeout=600)` as distinguished by the source's handlers: a completed process
with its return code and stderr, a missing `ollama` binary
(`FileNotFoundError`), the 600-second timeout (`subprocess.TimeoutExpired`),
or any other exception. -/
inductive ProcOutcome where
  | completed (returncode : Int) (stderr : String)
  | fileNotFound
  | timeoutExpired
  | exc (msg : String)

/-- `pull_ollama_model(model_name)` from `local_utils.py`, as a function of the
subprocess outcome. Every arm returns a `(success, message)` tuple. -/
def pull_ollama_model (model_name : String) (outcome : ProcOutcome) : Bool × String :=
  match outcome with
  | .completed rc stderr =>
    if rc = 0 then (true, "Successfully pulled " ++ model_name)
    else (false, "Failed to pull " ++ model_name ++ ": " ++ stderr)
  | .fileNotFound => (false, "ollama CLI not found. Install from: https://ollama.com")
  | .timeoutExpired => (false, "Timed out pulling " ++ model_name ++ " (>10 min)")
  | .exc e => (false, "Error pulling model: " ++ e)

/-- The file-system facts `local_utils.py` and `llamacpp_client.py` consult:
`os.path.isfile`, `os.access(path, os.R_OK)` and `os.path.getsize`. -/
structure FileSystem where
  isfile : String → Bool
  access_read : String → Bool
  getsize : String → Nat

/-- Round-half-even of the nonnegative rational `num / den`, on naturals; this
is Python's rounding mode for `round` and for `:.1f` formatting (modelled over
exact rationals rather than binary doubles). -/
def rneNat (num den : Nat) : Nat :=
  let q := num / den
  let r := num % den
  if 2 * r < den then q else if 2 * r > den then q + 1 else if q % 2 = 0 then q else q + 1

/-- Python `round(x, 1)` for nonnegative rationals: round-half-even at one
decimal place. -/
def roundTo1 (x : ℚ) : ℚ :=
  (rneNat (x * 10).num.toNat (x * 10).den : ℚ) / 10

/-- The `f"{size_gb:.1f}"` formatting of `validate_gguf_path`, for
`size_gb = size_bytes / (1024 ** 3)`: one decimal digit, round-half-even. -/
def formatSizeGB (size_bytes : Nat) : String :=
  let tenths := rneNat (size_bytes * 10) (1024 ^ 3)
  toString (tenths / 10) ++ "." ++ toString (tenths % 10)

/-- `validate_gguf_path(path)` from `local_utils.py`: empty path, missing
file, wrong extension and unreadable file each return `(False, message)`; an
existing readable `.gguf` file returns `(True, message)` with the rounded
size. -/
def validate_gguf_path (fs : FileSystem) (path : String) : Bool × String :=
  if path = "" then (false, "No model path provided")
  else if !fs.isfile path then (false, "File not found: " ++ path)
  else if !pyEndsWith (pyLower path) ".gguf" then
    (false, "File does not have .gguf extension: " ++ path)
  else if !fs.access_read path then (false, "File not readable: " ++ path)
  else (true, "Valid GGUF file (" ++ formatSizeGB (fs.getsize path) ++ " GB)")

/-- `estimate_memory_usage(model_path)` from `local_utils.py`: `None` when the
path is not a file, else `round(size_bytes * 1.15 / (1024 ** 3), 1)` (the
float literal `1.15` modelled as the exact rational `115 / 100`). -/
def estimate_memory_usage (fs : FileSystem) (model_path : String) : Option ℚ :=
  if !fs.isfile model_path then none
  else some (roundTo1 ((fs.getsize model_path : ℚ) * (115 / 100) / 1024 ^ 3))

/-!
## The llama-cpp client

Embedding of `LlamaCppClient` from `tradingagents/llm_clients/llamacpp_client.py`.
Python exceptions raised by `__init__` and `get_llm` are modelled by an error
type with one constructor per exception class used; `get_llm` returns the
keyword configuration passed to `ChatLlamaCpp` (the `callbacks` entry, an
opaque handler list, is not part of the modelled configuration data).
-/

/-- The exception classes raised by `LlamaCppClient`, each carrying its
message. -/
inductive PyError where
  | importError (msg : String)
  | valueError (msg : String)
  | fileNotFoundError (msg : String)
deriving DecidableEq

/-- The keyword options of a `LlamaCppClient` (`self.kwargs`): `None` models
an absent key. -/
structure LlamaCppKwargs where
  model_path : Option String
  n_gpu_layers : Option Int
  n_ctx : Option Int
  n_batch : Option Int
  temperature : Option ℚ

/-- The configuration `get_llm` passes to `ChatLlamaCpp`. -/
structure ChatLlamaCppConfig where
  model_path : String
  n_gpu_layers : Int
  n_ctx : Int
  n_batch : Int
  verbose : Bool
  temperature : Option ℚ
deriving DecidableEq

/-- A constructed `LlamaCppClient`: the fields stored by
`BaseLLMClient.__init__`. -/
structure LlamaCppClient where
  model : String
  base_url : Option String
  kwargs : LlamaCppKwargs

/-- `LlamaCppClient._validate_dependencies`: raises `ImportError` when
`llama_cpp` is not importable. -/
def LlamaCppClient_validate_dependencies (llama_cpp_installed : Bool) : Except PyError Unit :=
  if llama_cpp_installed then .ok ()
  else .error (.importError
    "llama-cpp-python is required for local inference. Install with: pip install tradingagents[local]")

/-- `LlamaCppClient.__init__(model, base_url, **kwargs)`: store the fields,
then check the dependency. -/
def LlamaCppClient_init (llama_cpp_installed : Bool) (model : String)
    (base_url : Option String) (kwargs : LlamaCppKwargs) : Except PyError LlamaCppClient :=
  match LlamaCppClient_validate_dependencies llama_cpp_installed with
  | .error e => .error e
  | .ok _ => .ok ⟨model, base_url, kwargs⟩

/-- `LlamaCppClient.get_llm`: `ValueError` when `model_path` is missing or
empty (`if not model_path`), `FileNotFoundError` when the path is not an
existing file, else the `ChatLlamaCpp` configuration with `.get` defaults
`n_gpu_layers=-1`, `n_ctx=4096`, `n_batch=512` and `verbose=False`. -/
def LlamaCppClient_get_llm (fs : FileSystem) (self : LlamaCppClient) :
    Except PyError ChatLlamaCppConfig :=
  let model_path := self.kwargs.model_path.getD ""
  if model_path = "" then
    .error (.valueError
      "model_path is required for llamacpp provider. Set local_model_path_deep / local_model_path_quick in config.")
  else if !fs.isfile model_path then
    .error (.fileNotFoundError ("GGUF model file not found: " ++ model_path))
  else
    .ok ⟨model_path, self.kwargs.n_gpu_layers.getD (-1), self.kwargs.n_ctx.getD 4096,
      self.kwargs.n_batch.getD 512, false, self.kwargs.temperature⟩

example :
    validate_gguf_path ⟨fun _ => false, fun _ => false, fun _ => 0⟩ "/no/such/model.gguf" =
      (false, "File not found: /no/such/model.gguf") := by rfl
example :
    check_ollama_health (.resp 404 (.bad "x")) = (false, "Ollama returned status 404") := by rfl
example :
    check_ollama_health (.resp 200 (.models [])) =
      (true, "Ollama running with 0 model(s): none") := by rfl
example :
    pull_ollama_model "qwen3:8b" .timeoutExpired =
      (false, "Timed out pulling qwen3:8b (>10 min)") := by rfl

/-!
## Helper lemmas
-/

/-- Two strings differ when they disagree at a character position that lies
inside the left operand of an append. -/
lemma append_head_ne (L t q : String) (i : Nat) (c₁ c₂ : Char)
    (h₁ : (L.data)[i]? = some c₁) (h₂ : (q.data)[i]? = some c₂) (hne : c₁ ≠ c₂) :
    L ++ t ≠ q := by
  intro h
  have hd : L.data ++ t.data = q.data := by
    have hh := congrArg String.data h
    rwa [String.data_append] at hh
  have hlt : i < L.data.length := (List.getElem?_eq_some_iff.1 h₁).1
  have hi : (L.data ++ t.data)[i]? = (q.data)[i]? := by rw [hd]
  rw [List.getElem?_append, if_pos hlt, h₁, h₂] at hi
  exact hne (Option.some.inj hi)

/-- Variant of `append_head_ne` for the five-way appends produced by the
renderer's f-strings: the first three operands form the discriminating head. -/
lemma part_shape_ne (pre kt post v tl q : String) (i : Nat) (c₁ c₂ : Char)
    (h₁ : ((pre ++ kt ++ post).data)[i]? = some c₁)
    (h₂ : ((q.data))[i]? = some c₂) (hne : c₁ ≠ c₂) :
    pre ++ kt ++ post ++ v ++ tl ≠ q := by
  have hs : pre ++ kt ++ post ++ v ++ tl = (pre ++ kt ++ post) ++ (v ++ tl) := by
    rw [String.append_assoc]
  rw [hs]
  exact append_head_ne _ _ _ i c₁ c₂ h₁ h₂ hne

/-- The head character of a sub-field part of the renderer is `#`, for any
sub-key title. -/
lemma subpart_head (kt : String) : (("### " ++ kt ++ "\n\n").data)[0]? = some '#' := by
  rw [String.data_append, String.data_append]
  rw [List.getElem?_append, if_pos (by simp)]
  rw [List.getElem?_append, if_pos (by decide)]
  rfl

/-!
## Theorems about the mock router
-/

/-- C1, counterexample: the prompt `"You are a Bull Analyst"` is routed to the
debate role bull, and the canned bull argument does not end with the sentinel
pattern `FINAL TRANSACTION PROPOSAL: **SIGNAL**` for any signal in
`{BUY, SELL, HOLD}`. -/
theorem bull_prompt_yields_sentinel_free_response :
    _route_response "You are a Bull Analyst" = MOCK_BULL_ARGUMENT ∧
      endsWithSentinel MOCK_BULL_ARGUMENT = false :=
  ⟨by decide, by decide⟩

/-- C1, amended: the canned responses for the four analyst roles and for the
research-manager, trader and risk-judge roles all end with the sentinel
pattern, while the bull and bear debate arguments and the three risk-analyst
responses do not. -/
theorem sentinel_suffix_by_canned_response :
    (endsWithSentinel MOCK_MARKET_REPORT = true ∧
     endsWithSentinel MOCK_SENTIMENT_REPORT = true ∧
     endsWithSentinel MOCK_NEWS_REPORT = true ∧
     endsWithSentinel MOCK_FUNDAMENTALS_REPORT = true ∧
     endsWithSentinel MOCK_RESEARCH_MANAGER_DECISION = true ∧
     endsWithSentinel MOCK_TRADER_DECISION = true ∧
     endsWithSentinel MOCK_RISK_JUDGE_DECISION = true) ∧
    (endsWithSentinel MOCK_BULL_ARGUMENT = false ∧
     endsWithSentinel MOCK_BEAR_ARGUMENT = false ∧
     endsWithSentinel MOCK_AGGRESSIVE_RISK = false ∧
     endsWithSentinel MOCK_CONSERVATIVE_RISK = false ∧
     endsWithSentinel MOCK_NEUTRAL_RISK = false) := by
  decide

/-- C4: whenever the lowercased prompt contains
`"extract the investment decision"`, the router returns the bare token `BUY`,
an element of `{BUY, SELL, HOLD}`; the rule is the first tested, so this holds
whatever else the text contains. -/
theorem extract_decision_rule_takes_precedence (text : String)
    (h : pyContains (pyLower text) "extract the investment decision" = true) :
    _route_response text = "BUY" ∧ "BUY" ∈ SIGNALS := by
  refine ⟨?_, by decide⟩
  simp [_route_response, routeLower, matchesExtractDecision, h]

/-- Witness for C4 on a prompt that also matches the bull-analyst rule: the
extraction rule still wins. -/
theorem extract_decision_rule_takes_precedence_witness :
    pyContains (pyLower "You are a Bull Analyst. Extract the investment decision.")
        "extract the investment decision" = true ∧
      (_route_response "You are a Bull Analyst. Extract the investment decision." = "BUY" ∧
        "BUY" ∈ SIGNALS) :=
  ⟨by decide, extract_decision_rule_takes_precedence _ (by decide)⟩

/-- C5: when no routing-rule guard matches the lowercased prompt, the router
returns the generic fallback, which contains the sentinel phrase with the
signal `BUY ∈ {BUY, SELL, HOLD}`. -/
theorem unmatched_prompt_gets_sentinel_fallback (text : String)
    (h : anyRuleMatches (pyLower text) = false) :
    _route_response text = MOCK_FALLBACK_RESPONSE ∧
      containsSentinel MOCK_FALLBACK_RESPONSE = true ∧
      pyContains MOCK_FALLBACK_RESPONSE (sentinelFor "BUY") = true ∧ "BUY" ∈ SIGNALS := by
  refine ⟨?_, by decide, by decide, by decide⟩
  simp only [anyRuleMatches, Bool.or_eq_false_iff, and_assoc] at h
  obtain ⟨h1, h2, h3, h4, h5, h6, h7, h8, h9, h10, h11, h12, h13, h14⟩ := h
  simp [_route_response, routeLower, h1, h2, h3, h4, h5, h6, h7, h8, h9, h10, h11, h12,
    h13, h14]

/-- Witness for C5 at the prompt `"hello"`, which matches no guard. -/
theorem unmatched_prompt_gets_sentinel_fallback_witness :
    anyRuleMatches (pyLower "hello") = false ∧
      (_route_response "hello" = MOCK_FALLBACK_RESPONSE ∧
        containsSentinel MOCK_FALLBACK_RESPONSE = true ∧
        pyContains MOCK_FALLBACK_RESPONSE (sentinelFor "BUY") = true ∧ "BUY" ∈ SIGNALS) :=
  ⟨by decide, unmatched_prompt_gets_sentinel_fallback _ (by decide)⟩

/-- C8: the router is a pure function of the prompt text — it takes no other
input, so two evaluations on the same string are the same term and are equal;
there is no state, ordering or randomness for it to depend on. -/
theorem route_response_deterministic (x : String) :
    _route_response x = _route_response x := rfl

/-- C10: the router first lowercases its input and inspects nothing else, so
any two prompts with the same lowercasing — in particular any two that differ
only in letter case — receive the same response. -/
theorem route_response_case_insensitive (x y : String)
    (h : pyLower x = pyLower y) : _route_response x = _route_response y := by
  unfold _route_response
  rw [h]

/-- Witness for C10 on a shouted and a lowercase bull-analyst prompt. -/
theorem route_response_case_insensitive_witness :
    pyLower "You Are A BULL ANALYST" = pyLower "you are a bull analyst" ∧
      _route_response "You Are A BULL ANALYST" = _route_response "you are a bull analyst" :=
  ⟨by decide, route_response_case_insensitive _ _ (by decide)⟩

/-!
## Theorems about the Markdown renderer
-/

/-- The company line starts with `*`, so it is never the Risk Debate header. -/
lemma companyLine_ne_riskHeader (st : Snapshot) : companyLine st ≠ RISK_HEADER := by
  unfold companyLine RISK_HEADER
  rw [String.append_assoc, String.append_assoc, String.append_assoc]
  exact append_head_ne _ _ _ 0 '*' '\n' (by decide) (by decide) (by decide)

/-- A top-level field part whose title head character differs from `R` is
never the Risk Debate header. -/
lemma riskHeader_notin_topfield_of_head (st : Snapshot) (key : String) (c : Char)
    (hc : (("\n---\n## " ++ keyTitle key ++ "\n\n").data)[8]? = some c) (hne : c ≠ 'R') :
    RISK_HEADER ∉ renderTopField st key := by
  unfold renderTopField
  cases hv : lookupKey st key with
  | none => simp
  | some v =>
    cases ht : v.truthy
    · simp [ht]
    · simp only [ht, if_true, List.mem_singleton]
      intro h
      exact part_shape_ne _ _ _ _ _ _ 8 c 'R' hc (by decide) hne h.symm

/-- No report or trailing top-level field ever renders the Risk Debate
header: all six titles start with a character other than `R`. -/
lemma riskHeader_notin_renderTopField (st : Snapshot) (key : String)
    (hk : key ∈ REPORT_KEYS ++ TAIL_KEYS) :
    RISK_HEADER ∉ renderTopField st key := by
  fin_cases hk
  · exact riskHeader_notin_topfield_of_head st _ 'M' (by decide) (by decide)
  · exact riskHeader_notin_topfield_of_head st _ 'S' (by decide) (by decide)
  · exact riskHeader_notin_topfield_of_head st _ 'N' (by decide) (by decide)
  · exact riskHeader_notin_topfield_of_head st _ 'F' (by decide) (by decide)
  · exact riskHeader_notin_topfield_of_head st _ 'I' (by decide) (by decide)
  · exact riskHeader_notin_topfield_of_head st _ 'F' (by decide) (by decide)

/-- Sub-field parts start with `#`, so no debate sub-field ever renders the
Risk Debate header. -/
lemma riskHeader_notin_renderSubfields (m : List (String × String)) (subkeys : List String) :
    RISK_HEADER ∉ renderSubfields m subkeys := by
  unfold renderSubfields
  intro h
  obtain ⟨l, hl, hx⟩ := List.mem_flatten.1 h
  obtain ⟨sk, hsk, rfl⟩ := List.mem_map.1 hl
  revert hx
  cases hs : lookupSub m sk with
  | none => simp
  | some x =>
    cases hx0 : !(x = "")
    · simp [hx0]
    · simp only [hx0, if_true, List.mem_singleton]
      intro h
      exact part_shape_ne _ _ _ _ _ _ 0 '#' '\n' (subpart_head (keyTitle sk)) (by decide)
        (by decide) h.symm

/-- C2, counterexample: a snapshot whose `risk_debate_state` is present but
empty — a falsy value by Python truthiness — is still rendered with the
`## Risk Debate` section header, as an empty section: the debate blocks test
only key presence, not truthiness. -/
theorem empty_risk_debate_state_still_renders_section :
    StateVal.truthy (.dict []) = false ∧
      _state_to_md [("risk_debate_state", .dict [])] =
        .ok ["**Company:** N/A | **Trade Date:** N/A\n", RISK_HEADER] ∧
      RISK_HEADER = "\n---\n## Risk Debate\n\n" :=
  ⟨by decide, by rfl, by rfl⟩

/-- C2, amended: absent top-level fields and falsy report, trailing and
sub-fields are omitted, but a present `risk_debate_state` (or
`investment_debate_state`) key renders its section header even when its map
is empty. For every snapshot that omits the `risk_debate_state` key (with
`investment_debate_state`, if present, a map, per the data model), rendering
succeeds — it does not raise — and no rendered part is the Risk Debate
header. -/
theorem absent_risk_key_renders_no_risk_section (st : Snapshot)
    (hrisk : lookupKey st "risk_debate_state" = none)
    (hinv : ∀ x : String, lookupKey st "investment_debate_state" ≠ some (.str x)) :
    ∃ parts, _state_to_md st = .ok parts ∧ RISK_HEADER ∉ parts := by
  have hronly : renderDebateBlock st "risk_debate_state" RISK_HEADER RISK_SUBKEYS = .ok [] := by
    unfold renderDebateBlock
    rw [hrisk]
  obtain ⟨ip, hip, hni⟩ :
      ∃ ip, renderDebateBlock st "investment_debate_state" INVEST_HEADER INVEST_SUBKEYS =
          .ok ip ∧ RISK_HEADER ∉ ip := by
    cases hv : lookupKey st "investment_debate_state" with
    | none =>
      refine ⟨[], ?_, by simp⟩
      unfold renderDebateBlock
      rw [hv]
    | some v =>
      cases v with
      | str x => exact absurd hv (hinv x)
      | dict m =>
        refine ⟨INVEST_HEADER :: renderSubfields m INVEST_SUBKEYS, ?_, ?_⟩
        · unfold renderDebateBlock
          rw [hv]
        · intro hmem
          rcases List.mem_cons.1 hmem with h | h
          · exact (by decide : ¬(RISK_HEADER = INVEST_HEADER)) h
          · exact riskHeader_notin_renderSubfields m INVEST_SUBKEYS h
  refine ⟨[companyLine st] ++ (REPORT_KEYS.map (renderTopField st)).flatten ++ ip ++ [] ++
    (TAIL_KEYS.map (renderTopField st)).flatten, ?_, ?_⟩
  · unfold _state_to_md
    rw [hip, hronly]
    rfl
  · simp only [List.mem_append, List.mem_singleton]
    rintro ((((h | h) | h) | h) | h)
    · exact companyLine_ne_riskHeader st h.symm
    · obtain ⟨l, hl, hx⟩ := List.mem_flatten.1 h
      obtain ⟨key, hkey, rfl⟩ := List.mem_map.1 hl
      exact riskHeader_notin_renderTopField st key (List.mem_append_left _ hkey) hx
    · exact hni h
    · exact List.not_mem_nil _ h
    · obtain ⟨l, hl, hx⟩ := List.mem_flatten.1 h
      obtain ⟨key, hkey, rfl⟩ := List.mem_map.1 hl
      exact riskHeader_notin_renderTopField st key (List.mem_append_right _ hkey) hx

/-- Witness for the amended C2 on a concrete snapshot without
`risk_debate_state`. -/
theorem absent_risk_key_renders_no_risk_section_witness :
    lookupKey [("company_of_interest", StateVal.str "NVDA"),
        ("market_report", StateVal.str "Markets up.")] "risk_debate_state" = none ∧
      ∃ parts, _state_to_md [("company_of_interest", StateVal.str "NVDA"),
          ("market_report", StateVal.str "Markets up.")] = .ok parts ∧
        RISK_HEADER ∉ parts :=
  ⟨rfl, absent_risk_key_renders_no_risk_section _ rfl (fun _ h => Option.noConfusion h)⟩

/-!
## Theorems about the local-model utilities and the llama-cpp client
-/

/-- C3: every outcome of the health check and of the pull — unreachable
server, server timeout, non-200 status, missing binary, exceeded 600-second
pull timeout, and any completed or other-exception case — is reported as a
`(bool, message)` tuple (the embedded functions are total, modelling that the
source's `try/except` arms return and never re-raise), and the
missing-binary and pull-timeout messages are distinct. -/
theorem ollama_utils_report_status_tuples (model_name : String) (o : HttpOutcome)
    (po : ProcOutcome) :
    check_ollama_health .connError =
        (false, "Ollama server not reachable. Start with: ollama serve") ∧
      check_ollama_health .timeout = (false, "Ollama server timed out") ∧
      (∀ status body, status ≠ 200 → check_ollama_health (.resp status body) =
        (false, "Ollama returned status " ++ toString status)) ∧
      (∃ healthy msg, check_ollama_health o = (healthy, msg)) ∧
      pull_ollama_model model_name .fileNotFound =
        (false, "ollama CLI not found. Install from: https://ollama.com") ∧
      pull_ollama_model model_name .timeoutExpired =
        (false, "Timed out pulling " ++ model_name ++ " (>10 min)") ∧
      "ollama CLI not found. Install from: https://ollama.com" ≠
        "Timed out pulling " ++ model_name ++ " (>10 min)" ∧
      (∃ success msg, pull_ollama_model model_name po = (success, msg)) ∧
      OLLAMA_PULL_TIMEOUT_SECONDS = 600 := by
  refine ⟨rfl, rfl, ?_, ⟨_, _, rfl⟩, rfl, rfl, ?_, ⟨_, _, rfl⟩, rfl⟩
  · intro status body h
    simp only [check_ollama_health]
    rw [if_neg h]
  · intro h
    have h2 : "Timed out pulling " ++ (model_name ++ " (>10 min)") =
        "ollama CLI not found. Install from: https://ollama.com" := by
      rw [← String.append_assoc]
      exact h.symm
    exact append_head_ne _ _ _ 0 'T' 'o' (by decide) (by decide) (by decide) h2

/-- Witness for C3 on a 404 response and a timed-out pull of `qwen3:8b`. -/
theorem ollama_utils_report_status_tuples_witness :
    check_ollama_health (.resp 404 (.bad "boom")) =
        (false, "Ollama returned status " ++ toString 404) ∧
      pull_ollama_model "qwen3:8b" .timeoutExpired =
        (false, "Timed out pulling " ++ "qwen3:8b" ++ " (>10 min)") := by
  have h := ollama_utils_report_status_tuples "qwen3:8b" (.resp 404 (.bad "boom"))
    (.completed 0 "")
  exact ⟨h.2.2.1 404 (.bad "boom") (by decide), h.2.2.2.2.2.1⟩

/-- C6: `validate_gguf_path` returns `(False, "No model path provided")` on
the empty path, `(False, "File not found: path")` on a non-empty path that is
not an existing file, `(False, message)` on an existing file without the
`.gguf` extension or without read access, `(True, message)` on an existing
readable `.gguf` file, and returns `True` only in that last case. -/
theorem validate_gguf_path_spec (fs : FileSystem) (path : String) :
    (path = "" → validate_gguf_path fs path = (false, "No model path provided")) ∧
      (path ≠ "" → fs.isfile path = false →
        validate_gguf_path fs path = (false, "File not found: " ++ path)) ∧
      (path ≠ "" → fs.isfile path = true → pyEndsWith (pyLower path) ".gguf" = false →
        validate_gguf_path fs path =
          (false, "File does not have .gguf extension: " ++ path)) ∧
      (path ≠ "" → fs.isfile path = true → pyEndsWith (pyLower path) ".gguf" = true →
        fs.access_read path = false →
        validate_gguf_path fs path = (false, "File not readable: " ++ path)) ∧
      (path ≠ "" → fs.isfile path = true → pyEndsWith (pyLower path) ".gguf" = true →
        fs.access_read path = true →
        validate_gguf_path fs path =
          (true, "Valid GGUF file (" ++ formatSizeGB (fs.getsize path) ++ " GB)")) ∧
      ((validate_gguf_path fs path).1 = true →
        path ≠ "" ∧ fs.isfile path = true ∧ pyEndsWith (pyLower path) ".gguf" = true ∧
          fs.access_read path = true) := by
  refine ⟨?_, ?_, ?_, ?_, ?_, ?_⟩
  · intro h
    simp [validate_gguf_path, h]
  · intro h1 h2
    simp [validate_gguf_path, h1, h2]
  · intro h1 h2 h3
    simp [validate_gguf_path, h1, h2, h3]
  · intro h1 h2 h3 h4
    simp [validate_gguf_path, h1, h2, h3, h4]
  · intro h1 h2 h3 h4
    simp [validate_gguf_path, h1, h2, h3, h4]
  · intro h
    unfold validate_gguf_path at h
    split_ifs at h with h1 h2 h3 h4
    all_goals try simp at h
    exact ⟨h1, by simpa using h2, by simpa using h3, by simpa using h4⟩

/-- Witness for C6 at the spec's concrete path `/no/such/model.gguf` on a
file system with no files. -/
theorem validate_gguf_path_spec_witness :
    ("/no/such/model.gguf" : String) ≠ "" ∧
      validate_gguf_path ⟨fun _ => false, fun _ => false, fun _ => 0⟩ "/no/such/model.gguf" =
        (false, "File not found: /no/such/model.gguf") := by
  refine ⟨by decide, ?_⟩
  have h := (validate_gguf_path_spec ⟨fun _ => false, fun _ => false, fun _ => 0⟩
    "/no/such/model.gguf").2.1 (by decide) rfl
  exact h.trans (by rfl)

/-- C7: constructing the client without llama-cpp support installed fails
with the named `ImportError`; `get_llm` fails with a `ValueError` stating a
model path is required when `model_path` is missing (or empty), fails with
`FileNotFoundError` when the path is not an existing file, and applies the
defaults `n_gpu_layers = -1`, `n_ctx = 4096`, `n_batch = 512` when those
options are omitted. -/
theorem llamacpp_client_errors_and_defaults (fs : FileSystem) (model : String)
    (base_url : Option String) (kw : LlamaCppKwargs) :
    (∀ m b k, LlamaCppClient_init false m b k = .error (.importError
        "llama-cpp-python is required for local inference. Install with: pip install tradingagents[local]")) ∧
      (kw.model_path.getD "" = "" →
        LlamaCppClient_get_llm fs ⟨model, base_url, kw⟩ = .error (.valueError
          "model_path is required for llamacpp provider. Set local_model_path_deep / local_model_path_quick in config.")) ∧
      (∀ mp, kw.model_path = some mp → mp ≠ "" → fs.isfile mp = false →
        LlamaCppClient_get_llm fs ⟨model, base_url, kw⟩ =
          .error (.fileNotFoundError ("GGUF model file not found: " ++ mp))) ∧
      (∀ mp, kw.model_path = some mp → mp ≠ "" → fs.isfile mp = true →
        kw.n_gpu_layers = none → kw.n_ctx = none → kw.n_batch = none →
        LlamaCppClient_get_llm fs ⟨model, base_url, kw⟩ =
          .ok ⟨mp, -1, 4096, 512, false, kw.temperature⟩) := by
  refine ⟨fun m b k => rfl, ?_, ?_, ?_⟩
  · intro h
    simp [LlamaCppClient_get_llm, h]
  · intro mp hmp hne hfile
    simp [LlamaCppClient_get_llm, hmp, hne, hfile]
  · intro mp hmp hne hfile hg hc hb
    simp [LlamaCppClient_get_llm, hmp, hne, hfile, hg, hc, hb]

/-- Witness for C7: the dependency error on an uninstalled backend and the
defaulted configuration for a present model file with omitted options. -/
theorem llamacpp_client_errors_and_defaults_witness :
    LlamaCppClient_init false "qwen" none ⟨none, none, none, none, none⟩ =
        .error (.importError
          "llama-cpp-python is required for local inference. Install with: pip install tradingagents[local]") ∧
      LlamaCppClient_get_llm ⟨fun _ => true, fun _ => true, fun _ => 0⟩
          ⟨"qwen", none, ⟨some "/models/m.gguf", none, none, none, none⟩⟩ =
        .ok ⟨"/models/m.gguf", -1, 4096, 512, false, none⟩ := by
  have h := llamacpp_client_errors_and_defaults ⟨fun _ => true, fun _ => true, fun _ => 0⟩
    "qwen" none ⟨some "/models/m.gguf", none, none, none, none⟩
  exact ⟨h.1 "qwen" none ⟨none, none, none, none, none⟩,
    h.2.2.2 "/models/m.gguf" rfl (by decide) rfl rfl rfl rfl⟩

/-- C9: for a path naming an existing file, `estimate_memory_usage` returns
the file size times `1.15`, divided by `1024³` and rounded to one decimal
place; for any other path it returns `None` (the embedding is total — nothing
is raised). -/
theorem estimate_memory_usage_spec (fs : FileSystem) (path : String) :
    (fs.isfile path = true → estimate_memory_usage fs path =
        some (roundTo1 ((fs.getsize path : ℚ) * (115 / 100) / 1024 ^ 3))) ∧
      (fs.isfile path = false → estimate_memory_usage fs path = none) := by
  constructor <;> intro h <;> simp [estimate_memory_usage, h]

/-- Witness for C9: a 2-GiB file estimates to 2.3 GB and a missing file to
`None`. -/
theorem estimate_memory_usage_spec_witness :
    estimate_memory_usage ⟨fun _ => true, fun _ => true, fun _ => 2 * 1024 ^ 3⟩ "m.gguf" =
        some (23 / 10) ∧
      estimate_memory_usage ⟨fun _ => false, fun _ => false, fun _ => 0⟩ "m.gguf" = none := by
  constructor
  · have h := (estimate_memory_usage_spec
      ⟨fun _ => true, fun _ => true, fun _ => 2 * 1024 ^ 3⟩ "m.gguf").1 rfl
    rw [h]
    have hval : ((2 * 1024 ^ 3 : Nat) : ℚ) * (115 / 100) / 1024 ^ 3 * 10 = 23 := by
      push_cast
      norm_num
    unfold roundTo1
    rw [hval]
    have hn : (23 : ℚ).num.toNat = 23 := rfl
    have hd : (23 : ℚ).den = 1 := rfl
    rw [hn, hd, (by decide : rneNat 23 1 = 23)]
    norm_num
  · exact (estimate_memory_usage_spec ⟨fun _ => false, fun _ => false, fun _ => 0⟩
      "m.gguf").2 rfl
